import Mathlib

/-!
Verification of the wobbly-tower stacking game
(`src/components/GameScene.tsx`, `src/constants.ts`, `src/types.ts`,
`src/App.tsx`).

The development shallowly embeds the interaction/judgment layer of the
game: the placement-stability evaluator, the per-tick tower health scan
and game-over orchestration, the commit-placement operation, the camera
state with its input operations, and the touch-gesture state machine.

Numeric game quantities are modelled over `ℚ` (the source computes with
IEEE doubles; every comparison the claims depend on is exact rational
arithmetic, and the one square root is captured by an equivalent squared
comparison proved against `Real.sqrt`).  The camera model uses `ℝ`
because its constants involve `π`, `arccos` and `√141`.
-/

/-- Block shape discriminator, from `BlockDefinition.shape` in
`src/types.ts` (`'Box' | 'Cylinder'`). -/
inductive ShapeKind where
  | Box
  | Cylinder
deriving DecidableEq, Repr

/-- Static block definition, from `BlockDefinition` in `src/types.ts`.
`dimX/dimY/dimZ` are the `dimensions` record: for a box these are
half-extents, for a cylinder `dimX` is the radius, `dimY` the half-height
used in spawn arithmetic, `dimZ` the segment count (unused by logic). -/
structure BlockDef where
  shape : ShapeKind
  dimX : ℚ
  dimY : ℚ
  dimZ : ℚ
  mass : ℚ
  friction : ℚ
  restitution : ℚ
deriving DecidableEq, Repr

/-- A placed block, from `PhysicsObject` in `src/types.ts` plus the live
body state read by `GameScene.tsx`: `body.position` (x, y, z) and the
derived orientation observation `upDot`, the dot product of the block's
world-space up vector (the body quaternion applied to local (0,1,0),
normalized) with world up, as computed at `GameScene.tsx:246-250`. -/
structure PlacedObj where
  posX : ℚ
  posY : ℚ
  posZ : ℚ
  upDot : ℚ
  defn : BlockDef
deriving DecidableEq, Repr

/-- The transient ghost placement: lateral x offset
(`ghostBlockXOffset`), yaw rotation (`ghostBlockYRotation`), and the
pending block's definition (`blockToPlaceRef.current`). -/
structure GhostState where
  xOffset : ℚ
  yRotation : ℚ
  defn : BlockDef
deriving DecidableEq, Repr

/-- Stability verdict: the three indicator colors
`STABILITY_INDICATOR_COLOR_GREEN/YELLOW/RED` of `src/constants.ts`. -/
inductive StabilityColor where
  | GREEN
  | YELLOW
  | RED
deriving DecidableEq, Repr

/-- Source `PLACEMENT_STABILITY_GREEN_THRESHOLD_BOX = 0.4` (`src/constants.ts`). -/
def PLACEMENT_STABILITY_GREEN_THRESHOLD_BOX : ℚ := 2/5

/-- Source `PLACEMENT_STABILITY_YELLOW_THRESHOLD_BOX = 0.8` (`src/constants.ts`). -/
def PLACEMENT_STABILITY_YELLOW_THRESHOLD_BOX : ℚ := 4/5

/-- Source `PLACEMENT_STABILITY_GREEN_THRESHOLD_CYLINDER = 0.3` (`src/constants.ts`). -/
def PLACEMENT_STABILITY_GREEN_THRESHOLD_CYLINDER : ℚ := 3/10

/-- Source `PLACEMENT_STABILITY_YELLOW_THRESHOLD_CYLINDER = 0.7` (`src/constants.ts`). -/
def PLACEMENT_STABILITY_YELLOW_THRESHOLD_CYLINDER : ℚ := 7/10

/-- Source `GROUND_LEVEL = 0` (`src/constants.ts`). -/
def GROUND_LEVEL : ℚ := 0

/-- Source `GAME_OVER_FALL_THRESHOLD_Y = -5` (`src/constants.ts`). -/
def GAME_OVER_FALL_THRESHOLD_Y : ℚ := -5

/-- Source `FALLEN_BLOCK_DOT_THRESHOLD = 0.5` (`src/constants.ts`). -/
def FALLEN_BLOCK_DOT_THRESHOLD : ℚ := 1/2

/-- Source `TOWER_INSTABILITY_WARNING_DOT_THRESHOLD = 0.866` (`src/constants.ts`). -/
def TOWER_INSTABILITY_WARNING_DOT_THRESHOLD : ℚ := 866/1000

/-- Source `BLOCK_SPAWN_HEIGHT_OFFSET = 0.2` (`src/constants.ts`). -/
def BLOCK_SPAWN_HEIGHT_OFFSET : ℚ := 1/5

/-- Rational rendering of the comparison `Math.sqrt s <= a` used by the
cylinder branch of `calculatePlacementStability` (`GameScene.tsx:206,211,213`):
for any rationals, `√s ≤ a` holds iff `0 ≤ a` and `s ≤ a²`
(see `sqrtLe_iff_real_sqrt_le` below). -/
def sqrtLe (s a : ℚ) : Prop :=
  0 ≤ a ∧ s ≤ a ^ 2

instance (s a : ℚ) : Decidable (sqrtLe s a) := by
  unfold sqrtLe; infer_instance

/-- The highest-center-block selection loop of
`calculatePlacementStability` (`GameScene.tsx:165-172`): fold over the
placed blocks keeping the first block whose body `position.y` strictly
exceeds every earlier one (the source initializes `maxBlockY = -Infinity`
so the first block always becomes the initial candidate). -/
def highestBlockStep (acc : Option PlacedObj) (obj : PlacedObj) : Option PlacedObj :=
  match acc with
  | none => some obj
  | some best => if best.posY < obj.posY then some obj else acc

/-- The fold of `highestBlockStep` over the placed blocks, starting from
no candidate (`maxBlockY = -Infinity`, `highestBlock = null`). -/
def highestBlock (blocks : List PlacedObj) : Option PlacedObj :=
  blocks.foldl highestBlockStep none

/-- Shape-dispatching core of `calculatePlacementStability`
(`GameScene.tsx:176-220`), applied to the ghost and the selected target
block.  The ghost's z is the constant `0` (`GameScene.tsx:163`).  The
cylinder branch's `radialDistance <= allowed` comparisons are rendered by
`sqrtLe` (the squared form of `Math.sqrt`). -/
def stabilityVerdict (g : GhostState) (target : PlacedObj) : StabilityColor :=
  let ghostX := g.xOffset
  let ghostZ : ℚ := 0
  let offsetX := |ghostX - target.posX|
  let offsetZ := |ghostZ - target.posZ|
  if g.defn.shape = ShapeKind.Box ∧ target.defn.shape = ShapeKind.Box then
    let ghostHalfWidthX := g.defn.dimX
    let ghostHalfDepthZ := g.defn.dimZ
    let targetHalfWidthX := target.defn.dimX
    let targetHalfDepthZ := target.defn.dimZ
    let effectiveAllowedOffsetXGreen :=
      max 0 (targetHalfWidthX - ghostHalfWidthX) +
        ghostHalfWidthX * PLACEMENT_STABILITY_GREEN_THRESHOLD_BOX
    let effectiveAllowedOffsetZGreen :=
      max 0 (targetHalfDepthZ - ghostHalfDepthZ) +
        ghostHalfDepthZ * PLACEMENT_STABILITY_GREEN_THRESHOLD_BOX
    let effectiveAllowedOffsetXYellow :=
      max 0 (targetHalfWidthX - ghostHalfWidthX) +
        ghostHalfWidthX * PLACEMENT_STABILITY_YELLOW_THRESHOLD_BOX
    let effectiveAllowedOffsetZYellow :=
      max 0 (targetHalfDepthZ - ghostHalfDepthZ) +
        ghostHalfDepthZ * PLACEMENT_STABILITY_YELLOW_THRESHOLD_BOX
    if offsetX ≤ effectiveAllowedOffsetXGreen ∧ offsetZ ≤ effectiveAllowedOffsetZGreen then
      StabilityColor.GREEN
    else if offsetX ≤ effectiveAllowedOffsetXYellow ∧ offsetZ ≤ effectiveAllowedOffsetZYellow then
      StabilityColor.YELLOW
    else
      StabilityColor.RED
  else if g.defn.shape = ShapeKind.Cylinder ∨ target.defn.shape = ShapeKind.Cylinder then
    let ghostRadius := g.defn.dimX
    let targetRadius := target.defn.dimX
    let radialDistanceSq := offsetX * offsetX + offsetZ * offsetZ
    let effectiveAllowedRadialDistanceGreen :=
      max 0 (targetRadius - ghostRadius) +
        ghostRadius * PLACEMENT_STABILITY_GREEN_THRESHOLD_CYLINDER
    let effectiveAllowedRadialDistanceYellow :=
      max 0 (targetRadius - ghostRadius) +
        ghostRadius * PLACEMENT_STABILITY_YELLOW_THRESHOLD_CYLINDER
    if sqrtLe radialDistanceSq effectiveAllowedRadialDistanceGreen then
      StabilityColor.GREEN
    else if sqrtLe radialDistanceSq effectiveAllowedRadialDistanceYellow then
      StabilityColor.YELLOW
    else
      StabilityColor.RED
  else
    StabilityColor.YELLOW

/-- Source `calculatePlacementStability` (`GameScene.tsx:156-221`).  The ghost
argument is `none` when `ghostBlockRef.current` or
`blockToPlaceRef.current` is missing; with no placed blocks, or no
selected target, the verdict is GREEN. -/
def calculatePlacementStability (ghost : Option GhostState)
    (blocks : List PlacedObj) : StabilityColor :=
  match ghost with
  | none => StabilityColor.GREEN
  | some g =>
    if blocks.isEmpty then StabilityColor.GREEN
    else
      match highestBlock blocks with
      | none => StabilityColor.GREEN
      | some target => stabilityVerdict g target


/-- Source `BLOCK_DEFINITIONS[CUBE_S]` (`src/constants.ts`): box with
half-extents 0.5, mass 1, friction 0.8, restitution 0.05. -/
def CUBE_S : BlockDef :=
  ⟨ShapeKind.Box, 1/2, 1/2, 1/2, 1, 4/5, 1/20⟩

/-- Source `BLOCK_DEFINITIONS[RECT_TALL]` (`src/constants.ts`). -/
def RECT_TALL : BlockDef :=
  ⟨ShapeKind.Box, 1/4, 1, 1/4, 3/2, 7/10, 1/20⟩

/-- Source `BLOCK_DEFINITIONS[RECT_WIDE]` (`src/constants.ts`). -/
def RECT_WIDE : BlockDef :=
  ⟨ShapeKind.Box, 1, 1/4, 1/2, 5/2, 9/10, 1/20⟩

/-- Source `BLOCK_DEFINITIONS[CYLINDER_S]` (`src/constants.ts`): cylinder with
radius 0.4, height parameter 0.75, 16 segments, mass 1.2, friction 0.6,
restitution 0.1. -/
def CYLINDER_S : BlockDef :=
  ⟨ShapeKind.Cylinder, 2/5, 3/4, 16, 6/5, 3/5, 1/10⟩

/-- The `highestBlockYForFrame` accumulator of the per-tick scan
(`GameScene.tsx:231,241-244`): max over blocks of
`body.position.y + definition.dimensions.y`, starting at `GROUND_LEVEL`. -/
def highestBlockYForFrame (blocks : List PlacedObj) : ℚ :=
  blocks.foldl
    (fun acc obj =>
      if acc < obj.posY + obj.defn.dimY then obj.posY + obj.defn.dimY else acc)
    GROUND_LEVEL

/-- The `anyBlockFallenOffWorld` accumulator (`GameScene.tsx:232,252-254`):
set when some block's `position.y` is below `GAME_OVER_FALL_THRESHOLD_Y`
while the game is active. -/
def anyBlockFallenOffWorld (blocks : List PlacedObj) (isGameOver : Bool) : Bool :=
  blocks.foldl
    (fun acc obj =>
      if obj.posY < GAME_OVER_FALL_THRESHOLD_Y ∧ isGameOver = false then true
      else acc)
    false

/-- The `anyBlockTippedOverGameEnd` accumulator (`GameScene.tsx:233,256-260`):
a block's tilt is examined only when at least two blocks exist, the game
is active, and no earlier block of the same tick already set the flag;
it fires when `upDot < FALLEN_BLOCK_DOT_THRESHOLD`. -/
def anyBlockTippedOverGameEnd (blocks : List PlacedObj) (isGameOver : Bool) : Bool :=
  blocks.foldl
    (fun acc obj =>
      if 2 ≤ blocks.length ∧ isGameOver = false ∧ acc = false then
        if obj.upDot < FALLEN_BLOCK_DOT_THRESHOLD then true else acc
      else acc)
    false

/-- The `unstableBlockCountForWarning` accumulator
(`GameScene.tsx:234,262-264`): counts blocks whose
`upDot < TOWER_INSTABILITY_WARNING_DOT_THRESHOLD` while the game is
active. -/
def unstableBlockCountForWarning (blocks : List PlacedObj) (isGameOver : Bool) : Nat :=
  blocks.foldl
    (fun acc obj =>
      if isGameOver = false ∧ obj.upDot < TOWER_INSTABILITY_WARNING_DOT_THRESHOLD then
        acc + 1
      else acc)
    0

/-- Source `currentTowerHeightForScore` (`GameScene.tsx:268`): tower height for
this frame, zero when no block is placed. -/
def currentTowerHeightForScore (blocks : List PlacedObj) : ℚ :=
  if 0 < blocks.length then highestBlockYForFrame blocks - GROUND_LEVEL else 0

/-- Per-game orchestrator state threaded between ticks: the
`isGameOver` flag (the React prop mirrored through `isGameOverRef`) and
`maxAchievedHeightInGameRef` (`GameScene.tsx:107`). -/
structure GameTickState where
  isGameOver : Bool
  maxAchieved : ℚ
deriving DecidableEq, Repr

/-- Fresh-game orchestrator state (`GameScene.tsx:392`, `App.tsx`):
game active, best height 0. -/
def initialGameTickState : GameTickState :=
  ⟨false, 0⟩

/-- One tick of the `animate` loop's judgment sequence
(`GameScene.tsx:229-277`) applied to the physics snapshot of this frame:
scan the blocks, when active publish the height and fold it into the
best-height tracker (line 272), then if a terminal condition fired while
active, invoke the game-over callback with
`Math.max(0, maxAchievedHeightInGameRef.current)` (line 276).  Invoking
the callback runs `App.handleGameOver`, which sets `isGameOver`; that
prop is mirrored back into `isGameOverRef` before the next tick, so the
resulting state records `isGameOver := true`.  The returned option is
the callback invocation (its argument) of this tick, if any. -/
def tick (s : GameTickState) (blocks : List PlacedObj) : GameTickState × Option ℚ :=
  let anyFallen := anyBlockFallenOffWorld blocks s.isGameOver
  let anyTipped := anyBlockTippedOverGameEnd blocks s.isGameOver
  let h := currentTowerHeightForScore blocks
  let maxA := if s.isGameOver = false then max s.maxAchieved h else s.maxAchieved
  if (anyFallen || anyTipped) = true ∧ s.isGameOver = false then
    (⟨true, maxA⟩, some (max 0 maxA))
  else
    (⟨s.isGameOver, maxA⟩, none)

/-- Iterate `tick` over a sequence of per-frame physics snapshots,
collecting every game-over callback invocation. -/
def runTicks (s : GameTickState) : List (List PlacedObj) → GameTickState × List ℚ
  | [] => (s, [])
  | blocks :: rest =>
    let step := tick s blocks
    let tail := runTicks step.1 rest
    (tail.1, step.2.toList ++ tail.2)

/-- Scene state acted on by the commit-placement operation
`internalAddBlock` (`GameScene.tsx:544-610`): the readiness flags of its
guard (line 545), the cooldown flag `canAddBlock`, the ghost state, the
ghost's current y position, and the placed-block registry
`physicsObjectsRef`. -/
structure SceneState where
  worldReady : Bool
  sceneReady : Bool
  hasBlockToPlace : Bool
  ghostPresent : Bool
  isGameOver : Bool
  canAddBlock : Bool
  ghost : GhostState
  ghostPosY : ℚ
  blocks : List PlacedObj
deriving DecidableEq, Repr

/-- Source `internalAddBlock` (`GameScene.tsx:544-610`): a no-op unless the
world, scene, pending definition and ghost are present, the game is
active, and the cooldown flag allows placement.  On success it clears
the cooldown flag, creates the rigid body at
`(ghostBlockXOffset, ghost y, 0)` with a pure-yaw quaternion (so its
world up vector equals world up: `upDot = 1`), appends it to the
registry, and resets the ghost offset and rotation to 0. -/
def internalAddBlock (s : SceneState) : SceneState :=
  if s.worldReady = false ∨ s.sceneReady = false ∨ s.hasBlockToPlace = false ∨
      s.isGameOver = true ∨ s.canAddBlock = false ∨ s.ghostPresent = false then
    s
  else
    { s with
      canAddBlock := false
      blocks := s.blocks ++
        [⟨s.ghost.xOffset, s.ghostPosY, 0, 1, s.ghost.defn⟩]
      ghost := ⟨0, 0, s.ghost.defn⟩ }

/-- Source `THREE.MathUtils.degToRad`. -/
noncomputable def degToRad (deg : ℝ) : ℝ :=
  deg * (Real.pi / 180)

/-- Source `CAMERA_MIN_ZOOM_DISTANCE = 3` (`src/constants.ts`). -/
def CAMERA_MIN_ZOOM_DISTANCE : ℝ := 3

/-- Source `CAMERA_MAX_ZOOM_DISTANCE = 35` (`src/constants.ts`). -/
def CAMERA_MAX_ZOOM_DISTANCE : ℝ := 35

/-- Source `CAMERA_ZOOM_SPEED = 0.015` (`src/constants.ts`). -/
noncomputable def CAMERA_ZOOM_SPEED : ℝ := 3/200

/-- Source `CAMERA_MIN_POLAR_ANGLE = degToRad 5` (`src/constants.ts`). -/
noncomputable def CAMERA_MIN_POLAR_ANGLE : ℝ := degToRad 5

/-- Source `CAMERA_MAX_POLAR_ANGLE = degToRad 88` (`src/constants.ts`). -/
noncomputable def CAMERA_MAX_POLAR_ANGLE : ℝ := degToRad 88

/-- Source `CAMERA_ROTATION_SPEED_X = 0.015` (`src/constants.ts`). -/
noncomputable def CAMERA_ROTATION_SPEED_X : ℝ := 3/200

/-- Source `CAMERA_ROTATION_SPEED_Y = 0.015` (`src/constants.ts`). -/
noncomputable def CAMERA_ROTATION_SPEED_Y : ℝ := 3/200

/-- Source `CAMERA_PAN_SPEED = 0.3` (`src/constants.ts`). -/
noncomputable def CAMERA_PAN_SPEED : ℝ := 3/10

/-- The orbit-camera state `cameraStateRef` (`GameScene.tsx:123-131`):
spherical coordinates around a look-at target. -/
structure CameraState where
  phi : ℝ
  theta : ℝ
  radius : ℝ
  lookAtX : ℝ
  lookAtY : ℝ
  lookAtZ : ℝ

/-- The clamp pattern `Math.max(lo, Math.min(hi, v))` used for `phi`
(`GameScene.tsx:674,744,879`) and `radius` (`GameScene.tsx:690,780`). -/
noncomputable def clampR (lo hi v : ℝ) : ℝ :=
  max lo (min hi v)

/-- A camera preset record (`CAMERA_PRESET_FRONT/TOP/SIDE`,
`src/constants.ts`): the fields read unconditionally by
`setCameraPreset`. -/
structure PresetConfig where
  phi : ℝ
  theta : ℝ
  radius : ℝ
  lookAtX : ℝ
  lookAtZ : ℝ

/-- Source `CAMERA_PRESET_FRONT` (`src/constants.ts`): phi = PI/2.5,
theta = PI/2, radius 12 (lookAtYFactor 0.4 handled in
`setCameraPreset`). -/
noncomputable def CAMERA_PRESET_FRONT : PresetConfig :=
  ⟨Real.pi / (5/2), Real.pi / 2, 12, 0, 0⟩

/-- Source `CAMERA_PRESET_TOP` (`src/constants.ts`): phi = 0.01, theta = 0,
radius 18 (lookAtY = GROUND_LEVEL + 1 handled in `setCameraPreset`). -/
noncomputable def CAMERA_PRESET_TOP : PresetConfig :=
  ⟨1/100, 0, 18, 0, 0⟩

/-- Source `CAMERA_PRESET_SIDE` (`src/constants.ts`): phi = PI/2.5, theta = 0,
radius 12 (lookAtYFactor 0.4 handled in `setCameraPreset`). -/
noncomputable def CAMERA_PRESET_SIDE : PresetConfig :=
  ⟨Real.pi / (5/2), 0, 12, 0, 0⟩

/-- The three presets of `setCameraPreset` (`GameScene.tsx:853`). -/
inductive PresetKind where
  | front
  | top
  | side

/-- Source `setCameraPreset` (`GameScene.tsx:853-880`): writes the preset's
`phi`, `theta`, `radius` and look-at target into the camera state; the
look-at height is scaled from the current tallest point
(`currentHighestBlockYRef`), factor 0.4 for front/side,
half-height (or `GROUND_LEVEL + 1` with no blocks) for top; `phi` is
re-clamped after assignment (line 879), `radius` is not. -/
noncomputable def setCameraPreset (preset : PresetKind) (cam : CameraState)
    (currentHighestBlockY : ℝ) (blocksNonempty : Bool) : CameraState :=
  match preset with
  | PresetKind.front =>
    { cam with
      phi := clampR CAMERA_MIN_POLAR_ANGLE CAMERA_MAX_POLAR_ANGLE CAMERA_PRESET_FRONT.phi
      theta := CAMERA_PRESET_FRONT.theta
      radius := CAMERA_PRESET_FRONT.radius
      lookAtX := CAMERA_PRESET_FRONT.lookAtX
      lookAtY := currentHighestBlockY * (2/5)
      lookAtZ := CAMERA_PRESET_FRONT.lookAtZ }
  | PresetKind.top =>
    { cam with
      phi := clampR CAMERA_MIN_POLAR_ANGLE CAMERA_MAX_POLAR_ANGLE CAMERA_PRESET_TOP.phi
      theta := CAMERA_PRESET_TOP.theta
      radius := CAMERA_PRESET_TOP.radius
      lookAtX := CAMERA_PRESET_TOP.lookAtX
      lookAtY := if blocksNonempty then currentHighestBlockY / 2 else 0 + 1
      lookAtZ := CAMERA_PRESET_TOP.lookAtZ }
  | PresetKind.side =>
    { cam with
      phi := clampR CAMERA_MIN_POLAR_ANGLE CAMERA_MAX_POLAR_ANGLE CAMERA_PRESET_SIDE.phi
      theta := CAMERA_PRESET_SIDE.theta
      radius := CAMERA_PRESET_SIDE.radius
      lookAtX := CAMERA_PRESET_SIDE.lookAtX
      lookAtY := currentHighestBlockY * (2/5)
      lookAtZ := CAMERA_PRESET_SIDE.lookAtZ }

/-- The WASD pan keys of `handleKeyDown` (`GameScene.tsx:615-621`). -/
inductive PanKey where
  | w
  | s
  | a
  | d

/-- One camera-mutating input operation, with the raw event deltas as
parameters: mouse-drag orbit (`handleMouseMove`, lines 666-678), wheel
zoom (`handleWheel`, lines 687-692), one-finger orbit
(`handleTouchMove`, lines 738-747), two-finger pinch (lines 778-781),
two-finger pan (lines 782-802, with the flattened normalized camera
forward/right basis written out in terms of `theta`), WASD look-at pan
(`handleKeyDown`), and camera presets (`setCameraPreset`). -/
inductive CamOp where
  | mouseMove (dx dy : ℝ)
  | wheel (deltaY : ℝ)
  | touchOrbit (dx dy : ℝ)
  | touchPinch (pinchDelta : ℝ)
  | touchPan (panDeltaX panDeltaY : ℝ)
  | keyPan (k : PanKey)
  | preset (p : PresetKind) (currentHighestBlockY : ℝ) (blocksNonempty : Bool)

/-- Apply one camera operation to the camera state, exactly as the
corresponding handler mutates `cameraStateRef`. -/
noncomputable def applyCamOp (cam : CameraState) : CamOp → CameraState
  | CamOp.mouseMove dx dy =>
    { cam with
      theta := cam.theta - dx * CAMERA_ROTATION_SPEED_X
      phi := clampR CAMERA_MIN_POLAR_ANGLE CAMERA_MAX_POLAR_ANGLE
        (cam.phi - dy * CAMERA_ROTATION_SPEED_Y) }
  | CamOp.wheel deltaY =>
    { cam with
      radius := clampR CAMERA_MIN_ZOOM_DISTANCE CAMERA_MAX_ZOOM_DISTANCE
        (cam.radius + deltaY * CAMERA_ZOOM_SPEED) }
  | CamOp.touchOrbit dx dy =>
    { cam with
      theta := cam.theta - dx * CAMERA_ROTATION_SPEED_X * (3/4)
      phi := clampR CAMERA_MIN_POLAR_ANGLE CAMERA_MAX_POLAR_ANGLE
        (cam.phi - dy * CAMERA_ROTATION_SPEED_Y * (3/4)) }
  | CamOp.touchPinch pinchDelta =>
    { cam with
      radius := clampR CAMERA_MIN_ZOOM_DISTANCE CAMERA_MAX_ZOOM_DISTANCE
        (cam.radius - pinchDelta * CAMERA_ZOOM_SPEED * 15) }
  | CamOp.touchPan panDeltaX panDeltaY =>
    let forwardX := -Real.sin cam.theta
    let forwardZ := -Real.cos cam.theta
    let rightX := -Real.cos cam.theta
    let rightZ := Real.sin cam.theta
    let panSpeedFactor := (1/200) * cam.radius
    { cam with
      lookAtX := cam.lookAtX + rightX * (-panDeltaX * panSpeedFactor) +
        forwardX * (-panDeltaY * panSpeedFactor)
      lookAtZ := cam.lookAtZ + rightZ * (-panDeltaX * panSpeedFactor) +
        forwardZ * (-panDeltaY * panSpeedFactor) }
  | CamOp.keyPan k =>
    match k with
    | PanKey.w => { cam with lookAtZ := cam.lookAtZ - CAMERA_PAN_SPEED }
    | PanKey.s => { cam with lookAtZ := cam.lookAtZ + CAMERA_PAN_SPEED }
    | PanKey.a => { cam with lookAtX := cam.lookAtX - CAMERA_PAN_SPEED }
    | PanKey.d => { cam with lookAtX := cam.lookAtX + CAMERA_PAN_SPEED }
  | CamOp.preset p currentHighestBlockY blocksNonempty =>
    setCameraPreset p cam currentHighestBlockY blocksNonempty

/-- Source `INITIAL_CAMERA_POSITION_VECTOR.distanceTo(INITIAL_CAMERA_LOOK_AT_VECTOR)`:
the distance from (5, 7, 10) to (0, 3, 0) (`src/constants.ts`). -/
noncomputable def INITIAL_CAMERA_DISTANCE : ℝ :=
  Real.sqrt ((5 - 0) ^ 2 + (7 - 3) ^ 2 + (10 - 0) ^ 2)

/-- The initial `cameraStateRef` (`GameScene.tsx:123-131`):
`phi = acos((posY - lookAtY) / distance)`,
`theta = atan2(posX - lookAtX, posZ - lookAtZ)` (written as `arctan`
of the quotient, valid since posZ - lookAtZ = 10 > 0),
`radius = distance`, look-at (0, 3, 0). -/
noncomputable def initialCameraState : CameraState :=
  { phi := Real.arccos ((7 - 3) / INITIAL_CAMERA_DISTANCE)
    theta := Real.arctan ((5 - 0) / (10 - 0))
    radius := INITIAL_CAMERA_DISTANCE
    lookAtX := 0
    lookAtY := 3
    lookAtZ := 0 }

/-- The camera invariant of the spec: `phi` within the polar clamp
range and `radius` within the zoom clamp range. -/
def camInvariant (cam : CameraState) : Prop :=
  CAMERA_MIN_POLAR_ANGLE ≤ cam.phi ∧ cam.phi ≤ CAMERA_MAX_POLAR_ANGLE ∧
    CAMERA_MIN_ZOOM_DISTANCE ≤ cam.radius ∧ cam.radius ≤ CAMERA_MAX_ZOOM_DISTANCE

/-- The touch-gesture state `touchStateRef` (`GameScene.tsx:133-145`). -/
structure TouchState where
  isInteracting : Bool
  isOrbiting : Bool
  isPinching : Bool
  isP_anning : Bool
  lastTouchX1 : ℝ
  lastTouchY1 : ℝ
  lastTouchX2 : ℝ
  lastTouchY2 : ℝ
  initialPinchDistance : ℝ
  initialPanMidX : ℝ
  initialPanMidY : ℝ

/-- The initial `touchStateRef` value (`GameScene.tsx:133-145`): no
interaction, no gesture mode, zeroed coordinates. -/
def initialTouchState : TouchState :=
  ⟨false, false, false, false, 0, 0, 0, 0, 0, 0, 0⟩

/-- Source `handleTouchStart` (`GameScene.tsx:694-728`), with the event's
`touches` list as (clientX, clientY) pairs.  One finger enters orbit
mode; two fingers record the inter-finger distance and midpoint and —
per lines 724-726 — set `isP_anning := true, isPinching := false`
("Default to pan").  (The handler also clears the mouse-drag flag,
which lives outside this state.) -/
noncomputable def handleTouchStart (ts : TouchState)
    (touches : List (ℝ × ℝ)) : TouchState :=
  match touches with
  | [t1] =>
    { ts with
      isInteracting := true
      isOrbiting := true
      isPinching := false
      isP_anning := false
      lastTouchX1 := t1.1
      lastTouchY1 := t1.2 }
  | [t1, t2] =>
    let dx := t1.1 - t2.1
    let dy := t1.2 - t2.2
    { ts with
      isInteracting := true
      isOrbiting := false
      initialPinchDistance := Real.sqrt (dx * dx + dy * dy)
      lastTouchX1 := t1.1
      lastTouchY1 := t1.2
      lastTouchX2 := t2.1
      lastTouchY2 := t2.2
      initialPanMidX := (t1.1 + t2.1) / 2
      initialPanMidY := (t1.2 + t2.2) / 2
      isP_anning := true
      isPinching := false }
  | _ => { ts with isInteracting := true }

/-- Source `handleTouchMove` (`GameScene.tsx:730-804`).  A no-op unless a touch
interaction is in progress.  One finger in orbit mode updates the camera
angles.  With two fingers it computes the pinch signal (change of
inter-finger distance) and pan signal (midpoint displacement); if
neither mode is set yet it locks in pinch when the pinch signal
dominates and exceeds the 2-pixel threshold, otherwise pan (lines
768-776); then the locked mode updates the camera: pinch adjusts the
clamped radius (lines 778-781), pan translates the look-at target along
the camera's flattened forward/right basis — written out here as
(-sin theta, 0, -cos theta) and (-cos theta, 0, sin theta), the exact
normalized values of the source's `getWorldDirection`-derived vectors —
scaled by `0.005 * radius` (lines 782-802). -/
noncomputable def handleTouchMove (ts : TouchState) (cs : CameraState)
    (touches : List (ℝ × ℝ)) : TouchState × CameraState :=
  if ts.isInteracting = false then (ts, cs)
  else
    match touches with
    | [t1] =>
      if ts.isOrbiting = true then
        let deltaX := t1.1 - ts.lastTouchX1
        let deltaY := t1.2 - ts.lastTouchY1
        ({ ts with lastTouchX1 := t1.1, lastTouchY1 := t1.2 },
          { cs with
            theta := cs.theta - deltaX * CAMERA_ROTATION_SPEED_X * (3/4)
            phi := clampR CAMERA_MIN_POLAR_ANGLE CAMERA_MAX_POLAR_ANGLE
              (cs.phi - deltaY * CAMERA_ROTATION_SPEED_Y * (3/4)) })
      else (ts, cs)
    | [t0, t1] =>
      let dx := t0.1 - t1.1
      let dy := t0.2 - t1.2
      let currentPinchDistance := Real.sqrt (dx * dx + dy * dy)
      let pinchDelta := currentPinchDistance - ts.initialPinchDistance
      let currentPanMidX := (t0.1 + t1.1) / 2
      let currentPanMidY := (t0.2 + t1.2) / 2
      let panDeltaX := currentPanMidX - ts.initialPanMidX
      let panDeltaY := currentPanMidY - ts.initialPanMidY
      let pinchThreshold : ℝ := 2
      let ts1 :=
        if ts.isPinching = false ∧ ts.isP_anning = false then
          if |pinchDelta| > max |panDeltaX| |panDeltaY| ∧
              |pinchDelta| > pinchThreshold then
            { ts with isPinching := true, isP_anning := false }
          else
            { ts with isP_anning := true, isPinching := false }
        else ts
      if ts1.isPinching = true then
        ({ ts1 with initialPinchDistance := currentPinchDistance },
          { cs with
            radius := clampR CAMERA_MIN_ZOOM_DISTANCE CAMERA_MAX_ZOOM_DISTANCE
              (cs.radius -
                (currentPinchDistance - ts.initialPinchDistance) *
                  CAMERA_ZOOM_SPEED * 15) })
      else if ts1.isP_anning = true then
        let forwardX := -Real.sin cs.theta
        let forwardZ := -Real.cos cs.theta
        let rightX := -Real.cos cs.theta
        let rightZ := Real.sin cs.theta
        let panSpeedFactor := (1/200) * cs.radius
        ({ ts1 with
            initialPanMidX := currentPanMidX
            initialPanMidY := currentPanMidY },
          { cs with
            lookAtX := cs.lookAtX + rightX * (-panDeltaX * panSpeedFactor) +
              forwardX * (-panDeltaY * panSpeedFactor)
            lookAtZ := cs.lookAtZ + rightZ * (-panDeltaX * panSpeedFactor) +
              forwardZ * (-panDeltaY * panSpeedFactor) })
      else (ts1, cs)
    | _ => (ts, cs)

/-- Source `handleTouchEnd` (`GameScene.tsx:806-823`): all fingers lifted
clears every flag; exactly one finger remaining re-enters orbit mode
from the remaining finger's position. -/
def handleTouchEnd (ts : TouchState) (touches : List (ℝ × ℝ)) : TouchState :=
  match touches with
  | [] =>
    { ts with
      isInteracting := false
      isOrbiting := false
      isPinching := false
      isP_anning := false }
  | [t1] =>
    { ts with
      isPinching := false
      isP_anning := false
      isOrbiting := true
      lastTouchX1 := t1.1
      lastTouchY1 := t1.2 }
  | _ => ts

/-! ## Theorems -/

/-- The squared comparison `sqrtLe` agrees with the source's
floating-point comparison `Math.sqrt s <= a` read over the reals. -/
theorem sqrtLe_iff_real_sqrt_le (s a : ℚ) :
    sqrtLe s a ↔ Real.sqrt (s : ℝ) ≤ (a : ℝ) := by
  rw [Real.sqrt_le_iff, sqrtLe]
  constructor
  · rintro ⟨h1, h2⟩
    refine ⟨by exact_mod_cast h1, by exact_mod_cast h2⟩
  · rintro ⟨h1, h2⟩
    refine ⟨by exact_mod_cast h1, ?_⟩
    have : ((s : ℝ)) ≤ ((a ^ 2 : ℚ) : ℝ) := by push_cast; exact h2
    exact_mod_cast this

/-- With a selected target, `calculatePlacementStability` reduces to the
shape-dispatched verdict on that target. -/
theorem calculatePlacementStability_eq_verdict (g : GhostState)
    (blocks : List PlacedObj) (t : PlacedObj)
    (ht : highestBlock blocks = some t) :
    calculatePlacementStability (some g) blocks = stabilityVerdict g t := by
  cases blocks with
  | nil => simp [highestBlock] at ht
  | cons b bs =>
    simp only [calculatePlacementStability, List.isEmpty_cons, ht]
    rfl

/-- Claim C1: when both the ghost and the selected top block are boxes,
the verdict is GREEN iff both axis offsets `|ghostX - topX|`,
`|ghostZ - topZ|` are within
`max 0 (targetHalfExtent - ghostHalfExtent) + ghostHalfExtent * 0.4`;
otherwise it is YELLOW iff both axes are within the same allowance with
factor `0.8`; otherwise it is RED. -/
theorem box_on_box_stability_tiers (g : GhostState) (blocks : List PlacedObj)
    (t : PlacedObj) (ht : highestBlock blocks = some t)
    (hg : g.defn.shape = ShapeKind.Box) (htb : t.defn.shape = ShapeKind.Box) :
    (calculatePlacementStability (some g) blocks = StabilityColor.GREEN ↔
      (|g.xOffset - t.posX| ≤
          max 0 (t.defn.dimX - g.defn.dimX) +
            g.defn.dimX * PLACEMENT_STABILITY_GREEN_THRESHOLD_BOX ∧
        |(0 : ℚ) - t.posZ| ≤
          max 0 (t.defn.dimZ - g.defn.dimZ) +
            g.defn.dimZ * PLACEMENT_STABILITY_GREEN_THRESHOLD_BOX)) ∧
    (calculatePlacementStability (some g) blocks = StabilityColor.YELLOW ↔
      (¬ (|g.xOffset - t.posX| ≤
            max 0 (t.defn.dimX - g.defn.dimX) +
              g.defn.dimX * PLACEMENT_STABILITY_GREEN_THRESHOLD_BOX ∧
          |(0 : ℚ) - t.posZ| ≤
            max 0 (t.defn.dimZ - g.defn.dimZ) +
              g.defn.dimZ * PLACEMENT_STABILITY_GREEN_THRESHOLD_BOX) ∧
        (|g.xOffset - t.posX| ≤
            max 0 (t.defn.dimX - g.defn.dimX) +
              g.defn.dimX * PLACEMENT_STABILITY_YELLOW_THRESHOLD_BOX ∧
          |(0 : ℚ) - t.posZ| ≤
            max 0 (t.defn.dimZ - g.defn.dimZ) +
              g.defn.dimZ * PLACEMENT_STABILITY_YELLOW_THRESHOLD_BOX))) ∧
    (calculatePlacementStability (some g) blocks = StabilityColor.RED ↔
      (¬ (|g.xOffset - t.posX| ≤
            max 0 (t.defn.dimX - g.defn.dimX) +
              g.defn.dimX * PLACEMENT_STABILITY_GREEN_THRESHOLD_BOX ∧
          |(0 : ℚ) - t.posZ| ≤
            max 0 (t.defn.dimZ - g.defn.dimZ) +
              g.defn.dimZ * PLACEMENT_STABILITY_GREEN_THRESHOLD_BOX) ∧
        ¬ (|g.xOffset - t.posX| ≤
            max 0 (t.defn.dimX - g.defn.dimX) +
              g.defn.dimX * PLACEMENT_STABILITY_YELLOW_THRESHOLD_BOX ∧
          |(0 : ℚ) - t.posZ| ≤
            max 0 (t.defn.dimZ - g.defn.dimZ) +
              g.defn.dimZ * PLACEMENT_STABILITY_YELLOW_THRESHOLD_BOX))) := by
  rw [calculatePlacementStability_eq_verdict g blocks t ht]
  unfold stabilityVerdict
  rw [if_pos ⟨hg, htb⟩]
  dsimp only
  split_ifs with h1 h2 <;>
    simp_all

/-- Witness for `box_on_box_stability_tiers`: the spec's own scenario —
target box half-extent 1 (`RECT_WIDE`), ghost half-extent 0.5
(`CUBE_S`), offset 1.3 exceeds the green allowance 0.7 and the yellow
allowance 0.9, so the verdict is RED. -/
theorem box_on_box_stability_tiers_witness :
    calculatePlacementStability (some ⟨13/10, 0, CUBE_S⟩)
      [⟨0, 1/4, 0, 1, RECT_WIDE⟩] = StabilityColor.RED :=
  ((box_on_box_stability_tiers ⟨13/10, 0, CUBE_S⟩ [⟨0, 1/4, 0, 1, RECT_WIDE⟩]
      ⟨0, 1/4, 0, 1, RECT_WIDE⟩ rfl rfl rfl).2.2).mpr
    (by
      have habs : |(13 : ℚ)/10| = 13/10 := abs_of_nonneg (by norm_num)
      norm_num [habs, CUBE_S, RECT_WIDE, PLACEMENT_STABILITY_GREEN_THRESHOLD_BOX,
        PLACEMENT_STABILITY_YELLOW_THRESHOLD_BOX])

/-- Claim C6 counterexample: a mixed cylinder-ghost / box-target
evaluation (ghost `CYLINDER_S` dead-centred on a placed `CUBE_S`) is
computed by the cylinder radial formula and returns GREEN, not the
claimed YELLOW fallback. -/
theorem mixed_shape_yellow_counterexample :
    calculatePlacementStability (some ⟨0, 0, CYLINDER_S⟩)
        [⟨0, 1/2, 0, 1, CUBE_S⟩] = StabilityColor.GREEN ∧
      StabilityColor.GREEN ≠ StabilityColor.YELLOW := by
  refine ⟨?_, by simp⟩
  rw [calculatePlacementStability_eq_verdict ⟨0, 0, CYLINDER_S⟩
    [⟨0, 1/2, 0, 1, CUBE_S⟩] ⟨0, 1/2, 0, 1, CUBE_S⟩ rfl]
  unfold stabilityVerdict
  dsimp only
  rw [if_neg (by decide),
    if_pos (Or.inl (show CYLINDER_S.shape = ShapeKind.Cylinder from rfl)),
    if_pos (by norm_num [sqrtLe, CYLINDER_S, CUBE_S,
      PLACEMENT_STABILITY_GREEN_THRESHOLD_CYLINDER])]

/-- Claim C6 (amended): an evaluation in which exactly one of the ghost
and the selected top block is a cylinder takes the cylinder branch of
`calculatePlacementStability` — radial distance against the
cylinder green/yellow allowances computed from the two blocks' x
dimensions — and the trailing YELLOW fallback is not reached. -/
theorem mixed_shape_uses_cylinder_formula (g : GhostState)
    (blocks : List PlacedObj) (t : PlacedObj)
    (ht : highestBlock blocks = some t)
    (hmix : (g.defn.shape = ShapeKind.Box ∧ t.defn.shape = ShapeKind.Cylinder) ∨
      (g.defn.shape = ShapeKind.Cylinder ∧ t.defn.shape = ShapeKind.Box)) :
    calculatePlacementStability (some g) blocks =
      (if sqrtLe (|g.xOffset - t.posX| * |g.xOffset - t.posX| +
            |(0 : ℚ) - t.posZ| * |(0 : ℚ) - t.posZ|)
          (max 0 (t.defn.dimX - g.defn.dimX) +
            g.defn.dimX * PLACEMENT_STABILITY_GREEN_THRESHOLD_CYLINDER) then
        StabilityColor.GREEN
      else if sqrtLe (|g.xOffset - t.posX| * |g.xOffset - t.posX| +
            |(0 : ℚ) - t.posZ| * |(0 : ℚ) - t.posZ|)
          (max 0 (t.defn.dimX - g.defn.dimX) +
            g.defn.dimX * PLACEMENT_STABILITY_YELLOW_THRESHOLD_CYLINDER) then
        StabilityColor.YELLOW
      else StabilityColor.RED) := by
  rw [calculatePlacementStability_eq_verdict g blocks t ht]
  unfold stabilityVerdict
  rcases hmix with ⟨h1, h2⟩ | ⟨h1, h2⟩ <;>
    simp [h1, h2]

/-- Witness for `mixed_shape_uses_cylinder_formula`: a box ghost
(`CUBE_S`, offset 0.5) over a cylinder target (`CYLINDER_S`) is judged
by the radial formula and lands RED. -/
theorem mixed_shape_uses_cylinder_formula_witness :
    calculatePlacementStability (some ⟨1/2, 0, CUBE_S⟩)
      [⟨0, 3/4, 0, 1, CYLINDER_S⟩] = StabilityColor.RED := by
  rw [mixed_shape_uses_cylinder_formula ⟨1/2, 0, CUBE_S⟩
    [⟨0, 3/4, 0, 1, CYLINDER_S⟩]
    ⟨0, 3/4, 0, 1, CYLINDER_S⟩ rfl (Or.inl ⟨rfl, rfl⟩)]
  norm_num [sqrtLe, CUBE_S, CYLINDER_S,
    PLACEMENT_STABILITY_GREEN_THRESHOLD_CYLINDER,
    PLACEMENT_STABILITY_YELLOW_THRESHOLD_CYLINDER]

/-- Auxiliary: the highest-center fold starting from candidate `b`
yields a block of the scanned region with maximal body-center y. -/
theorem highestBlock_foldl_spec (blocks : List PlacedObj) :
    ∀ b t : PlacedObj, blocks.foldl highestBlockStep (some b) = some t →
      (t = b ∨ t ∈ blocks) ∧ b.posY ≤ t.posY ∧ ∀ o ∈ blocks, o.posY ≤ t.posY := by
  induction blocks with
  | nil =>
    intro b t h
    simp only [List.foldl] at h
    obtain rfl : b = t := by simpa using h
    simp
  | cons o os ih =>
    intro b t h
    simp only [List.foldl] at h
    by_cases hbo : b.posY < o.posY
    · rw [show highestBlockStep (some b) o = some o by
        simp [highestBlockStep, hbo]] at h
      obtain ⟨hmem, hle, hall⟩ := ih o t h
      refine ⟨?_, le_trans (le_of_lt hbo) hle, ?_⟩
      · rcases hmem with rfl | hm
        · exact Or.inr (List.mem_cons_self _ _)
        · exact Or.inr (List.mem_cons_of_mem _ hm)
      · intro x hx
        rcases List.mem_cons.mp hx with rfl | hx'
        · exact hle
        · exact hall x hx'
    · rw [show highestBlockStep (some b) o = some b by
        simp [highestBlockStep, hbo]] at h
      obtain ⟨hmem, hle, hall⟩ := ih b t h
      refine ⟨?_, hle, ?_⟩
      · rcases hmem with rfl | hm
        · exact Or.inl rfl
        · exact Or.inr (List.mem_cons_of_mem _ hm)
      · intro x hx
        rcases List.mem_cons.mp hx with rfl | hx'
        · exact le_trans (not_lt.mp hbo) hle
        · exact hall x hx'

/-- Claim C9: the stability evaluator's target selection returns a
placed block whose body-center y is maximal over the registry; and on a
concrete two-block registry the selected block (`RECT_WIDE` at center
y = 1, top 1.25) is not the block with the highest top surface
(`RECT_TALL` at center y = 0.9, top 1.9). -/
theorem highestBlock_max_center_not_max_top :
    (∀ (blocks : List PlacedObj) (t : PlacedObj),
      highestBlock blocks = some t →
        t ∈ blocks ∧ ∀ o ∈ blocks, o.posY ≤ t.posY) ∧
    (highestBlock [⟨0, 1, 0, 1, RECT_WIDE⟩, ⟨0, 9/10, 0, 1, RECT_TALL⟩] =
        some ⟨0, 1, 0, 1, RECT_WIDE⟩ ∧
      (1 : ℚ) + RECT_WIDE.dimY < 9/10 + RECT_TALL.dimY) := by
  constructor
  · intro blocks t ht
    cases blocks with
    | nil => simp [highestBlock, List.foldl] at ht
    | cons b bs =>
      have hb : (b :: bs).foldl highestBlockStep none =
          bs.foldl highestBlockStep (some b) := rfl
      rw [highestBlock, hb] at ht
      obtain ⟨hmem, _, hall⟩ := highestBlock_foldl_spec bs b t ht
      refine ⟨?_, ?_⟩
      · rcases hmem with rfl | hm
        · exact List.mem_cons_self _ _
        · exact List.mem_cons_of_mem _ hm
      · intro o ho
        rcases List.mem_cons.mp ho with rfl | ho'
        · rcases hmem with rfl | hm
          · exact le_refl _
          · exact (highestBlock_foldl_spec bs o t ht).2.1
        · exact hall o ho'
  · constructor
    · norm_num [highestBlock, highestBlockStep, List.foldl]
    · norm_num [RECT_WIDE, RECT_TALL]

/-- Witness for `highestBlock_max_center_not_max_top`: its selection
property applied to the concrete two-block registry. -/
theorem highestBlock_max_center_witness :
    (⟨0, 1, 0, 1, RECT_WIDE⟩ : PlacedObj) ∈
        [(⟨0, 1, 0, 1, RECT_WIDE⟩ : PlacedObj), ⟨0, 9/10, 0, 1, RECT_TALL⟩] ∧
      ∀ o ∈ [(⟨0, 1, 0, 1, RECT_WIDE⟩ : PlacedObj), ⟨0, 9/10, 0, 1, RECT_TALL⟩],
        o.posY ≤ (⟨0, 1, 0, 1, RECT_WIDE⟩ : PlacedObj).posY :=
  highestBlock_max_center_not_max_top.1 _ _
    (by norm_num [highestBlock, highestBlockStep, List.foldl])

/-- Claim C10: the placement-stability verdict does not depend on the
ghost's yaw rotation: with the x offset, pending definition and placed
blocks fixed, any two rotations produce the same verdict. -/
theorem stability_independent_of_ghost_rotation (x r1 r2 : ℚ) (d : BlockDef)
    (blocks : List PlacedObj) :
    calculatePlacementStability (some ⟨x, r1, d⟩) blocks =
      calculatePlacementStability (some ⟨x, r2, d⟩) blocks := rfl

/-- Claim C8: `internalAddBlock` is a no-op — registry, ghost offset and
rotation all unchanged — whenever the game is over, the physics world or
scene is not ready, or the placement cooldown flag is down. -/
theorem place_noop_when_blocked (s : SceneState)
    (h : s.isGameOver = true ∨ s.worldReady = false ∨ s.sceneReady = false ∨
      s.canAddBlock = false) :
    internalAddBlock s = s := by
  unfold internalAddBlock
  rcases h with h | h | h | h <;> simp [h]

/-- Witness for `place_noop_when_blocked`: with the game over, a pending
placement leaves the scene state untouched. -/
theorem place_noop_when_blocked_witness :
    internalAddBlock
        ⟨true, true, true, true, true, true, ⟨1, 2, CUBE_S⟩, 3, []⟩ =
      ⟨true, true, true, true, true, true, ⟨1, 2, CUBE_S⟩, 3, []⟩ :=
  place_noop_when_blocked _ (Or.inl rfl)

/-- Auxiliary: the latched tip-over fold (guarded by the block count,
the game-over flag, and the not-yet-triggered latch) computes the plain
disjunction of the per-block tilt tests under the same guards. -/
theorem anyTipped_foldl_char (n : ℕ) (g : Bool) (l : List PlacedObj) :
    ∀ acc : Bool,
      (l.foldl
        (fun acc obj =>
          if 2 ≤ n ∧ g = false ∧ acc = false then
            if obj.upDot < FALLEN_BLOCK_DOT_THRESHOLD then true else acc
          else acc)
        acc) =
      (acc || (decide (2 ≤ n) && !g &&
        l.any fun b => decide (b.upDot < FALLEN_BLOCK_DOT_THRESHOLD))) := by
  induction l with
  | nil => intro acc; simp
  | cons b bs ih =>
    intro acc
    simp only [List.foldl_cons, List.any_cons]
    rw [ih]
    by_cases h2 : 2 ≤ n <;> cases g <;> cases acc <;>
      by_cases hb : b.upDot < FALLEN_BLOCK_DOT_THRESHOLD <;>
        simp [h2, hb]

/-- Claim C3: the tip-over flag of a tick equals the guarded first-tilted
disjunction (so the per-tick latch does not change the verdict), it is
never set with fewer than two placed blocks regardless of orientation,
and it is never set once the game is over. -/
theorem tipped_needs_two_blocks (blocks : List PlacedObj) (g : Bool) :
    (anyBlockTippedOverGameEnd blocks g =
      (decide (2 ≤ blocks.length) && !g &&
        blocks.any fun b => decide (b.upDot < FALLEN_BLOCK_DOT_THRESHOLD))) ∧
    (blocks.length < 2 → anyBlockTippedOverGameEnd blocks g = false) ∧
    (g = true → anyBlockTippedOverGameEnd blocks g = false) := by
  have hchar : anyBlockTippedOverGameEnd blocks g =
      (decide (2 ≤ blocks.length) && !g &&
        blocks.any fun b => decide (b.upDot < FALLEN_BLOCK_DOT_THRESHOLD)) := by
    unfold anyBlockTippedOverGameEnd
    exact anyTipped_foldl_char blocks.length g blocks false
  refine ⟨hchar, ?_, ?_⟩
  · intro hlen
    rw [hchar]
    simp [Nat.not_le.mpr hlen]
  · intro hg
    rw [hchar, hg]
    simp

/-- Witness for `tipped_needs_two_blocks`: a single fully tipped block
(`upDot = 0`) does not set the tip-over flag. -/
theorem tipped_needs_two_blocks_witness :
    anyBlockTippedOverGameEnd [⟨0, 0, 0, 0, CUBE_S⟩] false = false :=
  (tipped_needs_two_blocks [⟨0, 0, 0, 0, CUBE_S⟩] false).2.1 (by norm_num)

/-- Claim C7 counterexample: a block whose up-vector dot with world-up
is 0.9 — with two blocks placed and the game active — does not count
toward the warning count at all (0.9 is not below the warning threshold
0.866), and does not trigger the tip-over condition either.  The claim
that it counts toward the warning count is false. -/
theorem warning_dot_09_counterexample :
    unstableBlockCountForWarning
        [⟨0, 1/2, 0, 1, CUBE_S⟩, ⟨0, 3/2, 0, 9/10, CUBE_S⟩] false = 0 ∧
      anyBlockTippedOverGameEnd
        [⟨0, 1/2, 0, 1, CUBE_S⟩, ⟨0, 3/2, 0, 9/10, CUBE_S⟩] false = false := by
  constructor
  · norm_num [unstableBlockCountForWarning, List.foldl,
      TOWER_INSTABILITY_WARNING_DOT_THRESHOLD]
  · norm_num [anyBlockTippedOverGameEnd, List.foldl,
      FALLEN_BLOCK_DOT_THRESHOLD]

/-- Claim C7 (amended): a block with up-dot 0.9 counts toward neither
the warning count nor tip-over; a block whose up-dot lies below the
warning threshold 0.866 but at or above the tip threshold 0.5 counts
toward the warning count without triggering the tip-over game-over,
even with two blocks placed and the game active. -/
theorem warning_fires_between_thresholds (d : ℚ)
    (h1 : FALLEN_BLOCK_DOT_THRESHOLD ≤ d)
    (h2 : d < TOWER_INSTABILITY_WARNING_DOT_THRESHOLD) :
    unstableBlockCountForWarning
        [⟨0, 1/2, 0, 1, CUBE_S⟩, ⟨0, 3/2, 0, d, CUBE_S⟩] false = 1 ∧
      anyBlockTippedOverGameEnd
        [⟨0, 1/2, 0, 1, CUBE_S⟩, ⟨0, 3/2, 0, d, CUBE_S⟩] false = false ∧
      unstableBlockCountForWarning
        [⟨0, 1/2, 0, 1, CUBE_S⟩, ⟨0, 3/2, 0, 9/10, CUBE_S⟩] false = 0 := by
  have hnot : ¬ d < FALLEN_BLOCK_DOT_THRESHOLD := not_lt.mpr h1
  norm_num [TOWER_INSTABILITY_WARNING_DOT_THRESHOLD] at h2
  refine ⟨?_, ?_, ?_⟩
  · simp only [unstableBlockCountForWarning, List.foldl]
    norm_num [h2, TOWER_INSTABILITY_WARNING_DOT_THRESHOLD]
  · simp only [anyBlockTippedOverGameEnd, List.foldl]
    norm_num [hnot, FALLEN_BLOCK_DOT_THRESHOLD] at hnot ⊢
    norm_num [hnot]
  · norm_num [unstableBlockCountForWarning, List.foldl,
      TOWER_INSTABILITY_WARNING_DOT_THRESHOLD]

/-- Witness for `warning_fires_between_thresholds` at up-dot 0.7. -/
theorem warning_fires_between_thresholds_witness :
    unstableBlockCountForWarning
        [⟨0, 1/2, 0, 1, CUBE_S⟩, ⟨0, 3/2, 0, 7/10, CUBE_S⟩] false = 1 ∧
      anyBlockTippedOverGameEnd
        [⟨0, 1/2, 0, 1, CUBE_S⟩, ⟨0, 3/2, 0, 7/10, CUBE_S⟩] false = false ∧
      unstableBlockCountForWarning
        [⟨0, 1/2, 0, 1, CUBE_S⟩, ⟨0, 3/2, 0, 9/10, CUBE_S⟩] false = 0 :=
  warning_fires_between_thresholds (7/10)
    (by norm_num [FALLEN_BLOCK_DOT_THRESHOLD])
    (by norm_num [TOWER_INSTABILITY_WARNING_DOT_THRESHOLD])

/-- Auxiliary: once the game-over flag is set, later ticks never invoke
the callback again and the flag stays set. -/
theorem runTicks_after_gameOver (snaps : List (List PlacedObj)) :
    ∀ s : GameTickState, s.isGameOver = true →
      (runTicks s snaps).2 = [] ∧ (runTicks s snaps).1.isGameOver = true := by
  induction snaps with
  | nil => intro s hs; exact ⟨rfl, hs⟩
  | cons b rest ih =>
    intro s hs
    have hstep : tick s b = (⟨s.isGameOver, s.maxAchieved⟩, none) := by
      simp [tick, hs]
    simp only [runTicks, hstep]
    have := ih ⟨s.isGameOver, s.maxAchieved⟩ hs
    simpa using this

/-- Auxiliary: while the game is active, a tick either fires the
callback with the just-updated best-height tracker and sets the
game-over flag, or fires nothing, keeps the game active, and still
updates the best-height tracker. -/
theorem tick_active (s : GameTickState) (b : List PlacedObj)
    (hs : s.isGameOver = false) :
    tick s b =
      (if (anyBlockFallenOffWorld b false || anyBlockTippedOverGameEnd b false) = true then
        (⟨true, max s.maxAchieved (currentTowerHeightForScore b)⟩,
          some (max 0 (max s.maxAchieved (currentTowerHeightForScore b))))
      else
        (⟨false, max s.maxAchieved (currentTowerHeightForScore b)⟩, none)) := by
  simp only [tick, hs]
  split_ifs with h1 h2 <;> simp_all

/-- Auxiliary generalized trace property: starting from any active
state, at most one callback fires along any snapshot trace, and a fired
value is the zero-clamped running maximum of the per-tick tower heights
over the trace prefix ending at the firing tick, seeded with the
incoming best-height tracker. -/
theorem runTicks_active_spec (snaps : List (List PlacedObj)) :
    ∀ s : GameTickState, s.isGameOver = false →
      (runTicks s snaps).2.length ≤ 1 ∧
      ∀ v ∈ (runTicks s snaps).2, ∃ pre suf,
        snaps = pre ++ suf ∧ pre ≠ [] ∧
        v = max 0 (pre.foldl
          (fun m blocks => max m (currentTowerHeightForScore blocks))
          s.maxAchieved) := by
  induction snaps with
  | nil =>
    intro s _
    refine ⟨by simp [runTicks], ?_⟩
    intro v hv
    simp [runTicks] at hv
  | cons b rest ih =>
    intro s hs
    by_cases hterm :
        (anyBlockFallenOffWorld b false || anyBlockTippedOverGameEnd b false) = true
    · have hstep : tick s b =
          (⟨true, max s.maxAchieved (currentTowerHeightForScore b)⟩,
            some (max 0 (max s.maxAchieved (currentTowerHeightForScore b)))) := by
        rw [tick_active s b hs, if_pos hterm]
      obtain ⟨htail, _⟩ := runTicks_after_gameOver rest
        ⟨true, max s.maxAchieved (currentTowerHeightForScore b)⟩ rfl
      have hrun : (runTicks s (b :: rest)).2 =
          [max 0 (max s.maxAchieved (currentTowerHeightForScore b))] := by
        simp only [runTicks, hstep, htail]
        rfl
      rw [hrun]
      refine ⟨by simp, ?_⟩
      intro v hv
      rw [List.mem_singleton] at hv
      exact ⟨[b], rest, rfl, by simp, by simpa using hv⟩
    · have hstep : tick s b =
          (⟨false, max s.maxAchieved (currentTowerHeightForScore b)⟩, none) := by
        rw [tick_active s b hs, if_neg hterm]
      have hrun : (runTicks s (b :: rest)).2 =
          (runTicks ⟨false, max s.maxAchieved (currentTowerHeightForScore b)⟩ rest).2 := by
        simp only [runTicks, hstep]
        rfl
      obtain ⟨hlen, hval⟩ := ih ⟨false, max s.maxAchieved (currentTowerHeightForScore b)⟩ rfl
      rw [hrun]
      refine ⟨hlen, ?_⟩
      intro v hv
      obtain ⟨pre, suf, heq, hne, hv'⟩ := hval v hv
      refine ⟨b :: pre, suf, by rw [heq]; rfl, by simp, ?_⟩
      simpa using hv'

/-- Claim C2: starting a fresh game, along any sequence of per-frame
physics snapshots the game-over callback is invoked at most once, and
when it is invoked its argument is the zero-clamped maximum tower height
achieved over all ticks up to and including the firing tick — the
best-height tracker, not the height at the moment the terminal
condition fired. -/
theorem game_over_fires_once_with_best_height (snaps : List (List PlacedObj)) :
    (runTicks initialGameTickState snaps).2.length ≤ 1 ∧
    ∀ v ∈ (runTicks initialGameTickState snaps).2, ∃ pre suf,
      snaps = pre ++ suf ∧ pre ≠ [] ∧
      v = max 0 (pre.foldl
        (fun m blocks => max m (currentTowerHeightForScore blocks)) 0) :=
  runTicks_active_spec snaps initialGameTickState rfl

/-- Witness for `game_over_fires_once_with_best_height`: a two-tick game
in which a tall tower (height 3) is achieved first and then a block
falls below the fall threshold; the single callback value is the best
height 3, not the post-fall height. -/
theorem game_over_fires_once_witness :
    ∃ pre suf,
      [[(⟨0, 5/2, 0, 1, CUBE_S⟩ : PlacedObj)],
        [(⟨0, -6, 0, 1, CUBE_S⟩ : PlacedObj)]] = pre ++ suf ∧ pre ≠ [] ∧
      (3 : ℚ) = max 0 (pre.foldl
        (fun m blocks => max m (currentTowerHeightForScore blocks)) 0) :=
  (game_over_fires_once_with_best_height
      [[⟨0, 5/2, 0, 1, CUBE_S⟩], [⟨0, -6, 0, 1, CUBE_S⟩]]).2 3
    (by
      norm_num [runTicks, tick, initialGameTickState,
        anyBlockFallenOffWorld, anyBlockTippedOverGameEnd,
        currentTowerHeightForScore, highestBlockYForFrame, List.foldl,
        GROUND_LEVEL, GAME_OVER_FALL_THRESHOLD_Y,
        FALLEN_BLOCK_DOT_THRESHOLD, CUBE_S])

/-- Auxiliary: the `Math.max(lo, Math.min(hi, v))` clamp lands in
`[lo, hi]` whenever `lo ≤ hi`. -/
theorem clampR_mem (lo hi v : ℝ) (h : lo ≤ hi) :
    lo ≤ clampR lo hi v ∧ clampR lo hi v ≤ hi := by
  unfold clampR
  constructor
  · exact le_max_left _ _
  · exact max_le h (min_le_left _ _)

/-- Auxiliary: the polar clamp range is well ordered and the minimum is
positive. -/
theorem polar_range_ordered :
    0 < CAMERA_MIN_POLAR_ANGLE ∧
      CAMERA_MIN_POLAR_ANGLE ≤ CAMERA_MAX_POLAR_ANGLE := by
  unfold CAMERA_MIN_POLAR_ANGLE CAMERA_MAX_POLAR_ANGLE degToRad
  have hpi : 0 < Real.pi := Real.pi_pos
  constructor <;> nlinarith

/-- Auxiliary: the initial camera distance is `√141`. -/
theorem initial_camera_distance_eq : INITIAL_CAMERA_DISTANCE = Real.sqrt 141 := by
  unfold INITIAL_CAMERA_DISTANCE
  norm_num

/-- Auxiliary: the initial polar angle `acos(4 / √141)` lies within the
polar clamp range, and the initial radius `√141` lies within the zoom
clamp range. -/
theorem initial_camera_invariant : camInvariant initialCameraState := by
  have hsqrt_pos : (0 : ℝ) < Real.sqrt 141 := Real.sqrt_pos.mpr (by norm_num)
  have h8 : (8 : ℝ) ≤ Real.sqrt 141 :=
    (Real.le_sqrt (by norm_num) (by norm_num)).mpr (by norm_num)
  have h12 : Real.sqrt 141 ≤ 12 :=
    Real.sqrt_le_iff.mpr (by norm_num) |>.trans_eq rfl
  have hv_eq : (7 - 3 : ℝ) / INITIAL_CAMERA_DISTANCE = 4 / Real.sqrt 141 := by
    rw [initial_camera_distance_eq]; norm_num
  have hv_pos : (0 : ℝ) < 4 / Real.sqrt 141 := by positivity
  have hv_le_half : (4 : ℝ) / Real.sqrt 141 ≤ 1 / 2 := by
    have := div_le_div_of_nonneg_left (by norm_num : (0:ℝ) ≤ 4) (by norm_num : (0:ℝ) < 8) h8
    linarith
  have hv_ge_third : (1 : ℝ) / 3 ≤ 4 / Real.sqrt 141 := by
    have := div_le_div_of_nonneg_left (by norm_num : (0:ℝ) ≤ 4) hsqrt_pos h12
    linarith
  have hv_mem : (-1 : ℝ) ≤ 4 / Real.sqrt 141 ∧ (4 : ℝ) / Real.sqrt 141 ≤ 1 :=
    ⟨by linarith, by linarith⟩
  have hpi : 0 < Real.pi := Real.pi_pos
  have hpi4 : Real.pi ≤ 4 := Real.pi_le_four
  -- lower bound on the arccos
  have hmin : CAMERA_MIN_POLAR_ANGLE ≤ Real.arccos (4 / Real.sqrt 141) := by
    unfold CAMERA_MIN_POLAR_ANGLE degToRad
    by_contra hlt
    push_neg at hlt
    have h536 : (5 : ℝ) * (Real.pi / 180) = Real.pi / 36 := by ring
    rw [h536] at hlt
    have hcoslt : Real.cos (Real.pi / 36) < Real.cos (Real.arccos (4 / Real.sqrt 141)) :=
      Real.cos_lt_cos_of_nonneg_of_le_pi (Real.arccos_nonneg _) (by linarith) hlt
    rw [Real.cos_arccos hv_mem.1 hv_mem.2] at hcoslt
    have hcos_ge : (1 : ℝ) / 2 ≤ Real.cos (Real.pi / 36) := by
      have h13 : Real.cos (Real.pi / 3) ≤ Real.cos (Real.pi / 36) :=
        Real.cos_le_cos_of_nonneg_of_le_pi (by positivity) (by linarith) (by linarith)
      rw [Real.cos_pi_div_three] at h13
      exact h13
    linarith
  -- upper bound on the arccos
  have hmax : Real.arccos (4 / Real.sqrt 141) ≤ CAMERA_MAX_POLAR_ANGLE := by
    unfold CAMERA_MAX_POLAR_ANGLE degToRad
    by_contra hlt
    push_neg at hlt
    have h88 : (88 : ℝ) * (Real.pi / 180) = 22 * Real.pi / 45 := by ring
    rw [h88] at hlt
    have hcoslt : Real.cos (Real.arccos (4 / Real.sqrt 141)) < Real.cos (22 * Real.pi / 45) :=
      Real.cos_lt_cos_of_nonneg_of_le_pi (by positivity) (Real.arccos_le_pi _) hlt
    rw [Real.cos_arccos hv_mem.1 hv_mem.2] at hcoslt
    have hsin : Real.cos (22 * Real.pi / 45) = Real.sin (Real.pi / 90) := by
      rw [show 22 * Real.pi / 45 = Real.pi / 2 - Real.pi / 90 by ring,
        Real.cos_pi_div_two_sub]
    have hsin_lt : Real.sin (Real.pi / 90) < Real.pi / 90 :=
      Real.sin_lt (by positivity)
    have : Real.pi / 90 ≤ 1 / 3 := by linarith
    rw [hsin] at hcoslt
    linarith
  refine ⟨?_, ?_, ?_, ?_⟩
  · show CAMERA_MIN_POLAR_ANGLE ≤ initialCameraState.phi
    unfold initialCameraState
    dsimp only
    rw [hv_eq]
    exact hmin
  · show initialCameraState.phi ≤ CAMERA_MAX_POLAR_ANGLE
    unfold initialCameraState
    dsimp only
    rw [hv_eq]
    exact hmax
  · show CAMERA_MIN_ZOOM_DISTANCE ≤ initialCameraState.radius
    unfold initialCameraState CAMERA_MIN_ZOOM_DISTANCE
    dsimp only
    rw [initial_camera_distance_eq]
    linarith
  · show initialCameraState.radius ≤ CAMERA_MAX_ZOOM_DISTANCE
    unfold initialCameraState CAMERA_MAX_ZOOM_DISTANCE
    dsimp only
    rw [initial_camera_distance_eq]
    linarith

/-- Auxiliary: every camera operation preserves the camera invariant —
orbit operations re-clamp `phi`, zoom operations re-clamp `radius`,
pans touch only the look-at target, and presets re-clamp `phi` and
assign a radius (12 or 18) inside the zoom range. -/
theorem applyCamOp_preserves (cam : CameraState) (op : CamOp)
    (h : camInvariant cam) : camInvariant (applyCamOp cam op) := by
  obtain ⟨hp1, hp2, hr1, hr2⟩ := h
  have hpolar := polar_range_ordered
  have hzoom : CAMERA_MIN_ZOOM_DISTANCE ≤ CAMERA_MAX_ZOOM_DISTANCE := by
    unfold CAMERA_MIN_ZOOM_DISTANCE CAMERA_MAX_ZOOM_DISTANCE; norm_num
  cases op with
  | mouseMove dx dy =>
    obtain ⟨h1, h2⟩ := clampR_mem CAMERA_MIN_POLAR_ANGLE CAMERA_MAX_POLAR_ANGLE
      (cam.phi - dy * CAMERA_ROTATION_SPEED_Y) hpolar.2
    exact ⟨h1, h2, hr1, hr2⟩
  | wheel deltaY =>
    obtain ⟨h1, h2⟩ := clampR_mem CAMERA_MIN_ZOOM_DISTANCE CAMERA_MAX_ZOOM_DISTANCE
      (cam.radius + deltaY * CAMERA_ZOOM_SPEED) hzoom
    exact ⟨hp1, hp2, h1, h2⟩
  | touchOrbit dx dy =>
    obtain ⟨h1, h2⟩ := clampR_mem CAMERA_MIN_POLAR_ANGLE CAMERA_MAX_POLAR_ANGLE
      (cam.phi - dy * CAMERA_ROTATION_SPEED_Y * (3/4)) hpolar.2
    exact ⟨h1, h2, hr1, hr2⟩
  | touchPinch pinchDelta =>
    obtain ⟨h1, h2⟩ := clampR_mem CAMERA_MIN_ZOOM_DISTANCE CAMERA_MAX_ZOOM_DISTANCE
      (cam.radius - pinchDelta * CAMERA_ZOOM_SPEED * 15) hzoom
    exact ⟨hp1, hp2, h1, h2⟩
  | touchPan panDeltaX panDeltaY =>
    exact ⟨hp1, hp2, hr1, hr2⟩
  | keyPan k =>
    cases k <;> exact ⟨hp1, hp2, hr1, hr2⟩
  | preset p y hb =>
    cases p <;>
    · obtain ⟨h1, h2⟩ := clampR_mem CAMERA_MIN_POLAR_ANGLE CAMERA_MAX_POLAR_ANGLE _ hpolar.2
      refine ⟨h1, h2, ?_, ?_⟩ <;>
        simp only [applyCamOp, setCameraPreset, CAMERA_PRESET_FRONT,
          CAMERA_PRESET_TOP, CAMERA_PRESET_SIDE, CAMERA_MIN_ZOOM_DISTANCE,
          CAMERA_MAX_ZOOM_DISTANCE] <;>
        norm_num

/-- Claim C4: after any sequence of mouse-drag, wheel-zoom, one-finger
orbit, pinch, two-finger pan, keyboard pan and camera-preset operations
starting from the initial camera state, `phi` stays within
`[CAMERA_MIN_POLAR_ANGLE, CAMERA_MAX_POLAR_ANGLE]` and `radius` stays
within `[CAMERA_MIN_ZOOM_DISTANCE, CAMERA_MAX_ZOOM_DISTANCE]`. -/
theorem camera_invariant_all_op_sequences (ops : List CamOp) :
    camInvariant (ops.foldl applyCamOp initialCameraState) := by
  have hgen : ∀ (l : List CamOp) (cam : CameraState), camInvariant cam →
      camInvariant (l.foldl applyCamOp cam) := by
    intro l
    induction l with
    | nil => intro cam h; exact h
    | cons op rest ih =>
      intro cam h
      exact ih (applyCamOp cam op) (applyCamOp_preserves cam op h)
  exact hgen ops initialCameraState initial_camera_invariant

/-- Claim C5 (code evidence): at the moment a second finger makes
contact, `handleTouchStart` already assumes pan mode
(`isP_anning = true`, for every prior state and any finger positions),
so the pinch/pan lock-in comparison in `handleTouchMove` is unreachable
from a two-finger contact.  In the concrete trace the inter-finger
distance grows from 5 to 50 pixels — a pinch signal of 45 px that
dominates the midpoint displacement (13.5, 18) and exceeds the 2-px
threshold — yet the contact stays in pan mode and the camera radius is
unchanged. -/
theorem second_finger_contact_assumes_pan :
    (∀ (ts : TouchState) (t1 t2 : ℝ × ℝ),
      (handleTouchStart ts [t1, t2]).isP_anning = true ∧
      (handleTouchStart ts [t1, t2]).isPinching = false) ∧
    ((handleTouchMove (handleTouchStart initialTouchState [(0, 0), (3, 4)])
        initialCameraState [(0, 0), (30, 40)]).1.isPinching = false ∧
      (handleTouchMove (handleTouchStart initialTouchState [(0, 0), (3, 4)])
        initialCameraState [(0, 0), (30, 40)]).2.radius =
        initialCameraState.radius) :=
  ⟨fun _ _ _ => ⟨rfl, rfl⟩, rfl, rfl⟩
